import Mathlib

/-!
Shallow embedding of the core of the `ilocksecure/remotion` design-studio
repository: the layout data model (`src/app/lib/types.ts`, `schemas.ts`),
the layout engine (`src/app/lib/layout-engine.ts`), the diff editor
(`src/app/lib/apply-edits.ts`), the shadow-resolution parts of the two
renderers (`src/app/lib/react-renderer.tsx`, `src/app/lib/svg-mapper.ts`)
and the repair pass's type coercion.

JavaScript numbers are modelled as `ℚ`; `Math.round` is Mathlib's `round`
(both are "round half toward +infinity": `round x = ⌊x + 1/2⌋`).
Optional JSON fields are `Option`; absent = `none`.
-/

namespace Remotion

/-- `position: {x, y}` — absolute pixel coordinates (schemas.ts). -/
structure Position where
  x : ℚ
  y : ℚ
deriving DecidableEq

/-- `size: {width, height}` (schemas.ts). -/
structure Size where
  width : ℚ
  height : ℚ
deriving DecidableEq

/-- A gradient stop `{color, position}` (schemas.ts `ComponentStyleSchema.gradient.stops`). -/
structure GradientStop where
  color : String
  position : ℚ
deriving DecidableEq

/-- `gradient: {angle, stops}` (schemas.ts). -/
structure Gradient where
  angle : ℚ
  stops : List GradientStop
deriving DecidableEq

/-- `shadow: {x, y, blur, color}` (schemas.ts). -/
structure Shadow where
  x : ℚ
  y : ℚ
  blur : ℚ
  color : String
deriving DecidableEq

/-- `textAlign: "left" | "center" | "right"` (schemas.ts). -/
inductive TextAlign where
  | left
  | center
  | right
deriving DecidableEq

/-- `textTransform: "uppercase" | "lowercase" | "capitalize" | "none"` —
present in the current schema (used by the renderers and by the repair pass
in `src/app/api/edit-layout/route.ts`). -/
inductive TextTransform where
  | uppercase
  | lowercase
  | capitalize
  | none
deriving DecidableEq

/-- `ComponentStyleSchema` (schemas.ts): a bag of optional visual
properties.  `shadows` (multi-shadow array) and `textTransform` are in the
current schema: both are consumed by `react-renderer.tsx` and sanitized by
`repairResponse` in `src/app/api/edit-layout/route.ts`. -/
structure ComponentStyle where
  fill : Option String := Option.none
  stroke : Option String := Option.none
  strokeWidth : Option ℚ := Option.none
  borderRadius : Option ℚ := Option.none
  opacity : Option ℚ := Option.none
  fontFamily : Option String := Option.none
  fontSize : Option ℚ := Option.none
  fontWeight : Option ℚ := Option.none
  textAlign : Option TextAlign := Option.none
  color : Option String := Option.none
  letterSpacing : Option ℚ := Option.none
  lineHeight : Option ℚ := Option.none
  gradient : Option Gradient := Option.none
  shadow : Option Shadow := Option.none
  shadows : Option (List Shadow) := Option.none
  textTransform : Option TextTransform := Option.none
deriving DecidableEq

/-- The closed enumeration of the 11 component kinds (schemas.ts `type`). -/
inductive ComponentType where
  | text
  | shape
  | icon
  | imagePlaceholder
  | button
  | card
  | container
  | avatar
  | badge
  | divider
  | inputField
deriving DecidableEq

/-- `ComponentSpecSchema` (schemas.ts): the central recursive entity.
`children` is optional and recursive, hence an inductive rather than a
structure.  `zIndex` is a JS number (validation restricts it to a
non-negative integer, but `reorder` can write any number into it). -/
inductive ComponentSpec where
  | mk
    (id : String)
    (type : ComponentType)
    (position : Position)
    (size : Size)
    (rotation : ℚ)
    (zIndex : ℚ)
    (style : ComponentStyle)
    (children : Option (List ComponentSpec))
    (content : Option String)

def ComponentSpec.id : ComponentSpec → String
  | .mk i _ _ _ _ _ _ _ _ => i

def ComponentSpec.type : ComponentSpec → ComponentType
  | .mk _ t _ _ _ _ _ _ _ => t

def ComponentSpec.position : ComponentSpec → Position
  | .mk _ _ p _ _ _ _ _ _ => p

def ComponentSpec.size : ComponentSpec → Size
  | .mk _ _ _ s _ _ _ _ _ => s

def ComponentSpec.rotation : ComponentSpec → ℚ
  | .mk _ _ _ _ r _ _ _ _ => r

def ComponentSpec.zIndex : ComponentSpec → ℚ
  | .mk _ _ _ _ _ z _ _ _ => z

def ComponentSpec.style : ComponentSpec → ComponentStyle
  | .mk _ _ _ _ _ _ st _ _ => st

def ComponentSpec.children : ComponentSpec → Option (List ComponentSpec)
  | .mk _ _ _ _ _ _ _ ch _ => ch

def ComponentSpec.content : ComponentSpec → Option String
  | .mk _ _ _ _ _ _ _ _ co => co

/-- `{...comp, position: p}` — spread keeping every other field. -/
def ComponentSpec.setPosition : ComponentSpec → Position → ComponentSpec
  | .mk i t _ s r z st ch co, p => .mk i t p s r z st ch co

/-- `{...b, position: {...b.position, y: v}}`. -/
def ComponentSpec.setPosY : ComponentSpec → ℚ → ComponentSpec
  | .mk i t p s r z st ch co, v => .mk i t { x := p.x, y := v } s r z st ch co

def ComponentSpec.setSize : ComponentSpec → Size → ComponentSpec
  | .mk i t p _ r z st ch co, s => .mk i t p s r z st ch co

def ComponentSpec.setRotation : ComponentSpec → ℚ → ComponentSpec
  | .mk i t p s _ z st ch co, r => .mk i t p s r z st ch co

def ComponentSpec.setZIndex : ComponentSpec → ℚ → ComponentSpec
  | .mk i t p s r _ st ch co, z => .mk i t p s r z st ch co

def ComponentSpec.setStyle : ComponentSpec → ComponentStyle → ComponentSpec
  | .mk i t p s r z _ ch co, st => .mk i t p s r z st ch co

def ComponentSpec.setContent : ComponentSpec → Option String → ComponentSpec
  | .mk i t p s r z st ch _, co => .mk i t p s r z st ch co

/-- `BackgroundSchema` `type` field (schemas.ts). -/
inductive BackgroundType where
  | solid
  | gradient
  | image
deriving DecidableEq

/-- `BackgroundSchema` (schemas.ts). -/
structure Background where
  type : BackgroundType
  value : String
  gradient : Option Gradient := Option.none
deriving DecidableEq

/-- `LayerSpecSchema` (schemas.ts). -/
structure LayerSpec where
  id : String
  name : String
  visible : Bool
  locked : Bool
  componentIds : List String
deriving DecidableEq

/-- `LayoutSpecSchema` (schemas.ts): the aggregate root. -/
structure LayoutSpec where
  id : String
  canvasWidth : ℚ
  canvasHeight : ℚ
  background : Background
  components : List ComponentSpec
  layers : List LayerSpec

/-! ## Layout engine (`src/app/lib/layout-engine.ts`) -/

/-- `const GRID = 4` (layout-engine.ts line 3). -/
def GRID : ℚ := 4

/-- One coordinate of step 1 of `processLayout`:
`Math.max(0, Math.min(coord, canvasExtent - extent))`. -/
def clampCoord (lo hi : ℚ) : ℚ := max 0 (min lo hi)

/-- Step 1 of `processLayout` (layout-engine.ts lines 9-21): clamp a
component's position into the canvas, keeping every other field. -/
def clampComp (canvasWidth canvasHeight : ℚ) (comp : ComponentSpec) : ComponentSpec :=
  comp.setPosition
    { x := clampCoord comp.position.x (canvasWidth - comp.size.width),
      y := clampCoord comp.position.y (canvasHeight - comp.size.height) }

/-- One coordinate of step 2 of `processLayout`:
`Math.round(coord / GRID) * GRID`.  JS `Math.round` is `⌊x + 1/2⌋`, which
is Mathlib's `round` on `ℚ`. -/
def snapCoord (q : ℚ) : ℚ := ((round (q / GRID) : ℤ) : ℚ) * GRID

/-- Step 2 of `processLayout` (layout-engine.ts lines 24-30): snap the
position (only) to the grid. -/
def snapComp (comp : ComponentSpec) : ComponentSpec :=
  comp.setPosition
    { x := snapCoord comp.position.x,
      y := snapCoord comp.position.y }

/-- `overlapArea` (layout-engine.ts lines 41-53). -/
def overlapArea (a b : ComponentSpec) : ℚ :=
  let ox := max 0
    (min (a.position.x + a.size.width) (b.position.x + b.size.width) -
      max a.position.x b.position.x)
  let oy := max 0
    (min (a.position.y + a.size.height) (b.position.y + b.size.height) -
      max a.position.y b.position.y)
  ox * oy

/-- `intersects` (layout-engine.ts lines 85-92). -/
def intersects (a b : ComponentSpec) : Bool :=
  !(decide (a.position.x + a.size.width ≤ b.position.x) ||
    decide (b.position.x + b.size.width ≤ a.position.x) ||
    decide (a.position.y + a.size.height ≤ b.position.y) ||
    decide (b.position.y + b.size.height ≤ a.position.y))

/-- The body of the inner loop of `resolveCollisions` (layout-engine.ts
lines 59-79): given `a = result[i]` and `b = result[j]`, return the new
`result[j]`.  Mirrors the `continue`s: different `zIndex`, no
intersection, overlap ratio ≤ 0.25, or non-positive `overlapY` all leave
`b` unchanged; otherwise only `b`'s `y` is bumped. -/
def resolveStep (a b : ComponentSpec) : ComponentSpec :=
  if a.zIndex ≠ b.zIndex then b
  else if intersects a b then
    let overlap := overlapArea a b
    let smallerArea := min (a.size.width * a.size.height) (b.size.width * b.size.height)
    if overlap / smallerArea ≤ 0.25 then b
    else
      let overlapY := a.position.y + a.size.height - b.position.y
      if overlapY > 0 then b.setPosY (b.position.y + overlapY + GRID) else b
  else b

/-- The nested loop of `resolveCollisions` (layout-engine.ts lines 57-81).
Pass `i` fixes `result[i]` and rewrites every later entry through
`resolveStep result[i] ·`; entries before `i` are never touched again, so
the loop is equivalent to this head-and-tail recursion.  The `fuel`
argument (always called with `fuel = length`, which `List.map` preserves)
makes the recursion structural. -/
def resolveAux : Nat → List ComponentSpec → List ComponentSpec
  | _, [] => []
  | 0, l => l
  | fuel + 1, a :: rest => a :: resolveAux fuel (rest.map (resolveStep a))

/-- `resolveCollisions` (layout-engine.ts lines 55-83). -/
def resolveCollisions (components : List ComponentSpec) : List ComponentSpec :=
  resolveAux components.length components

/-- The comparator of step 4 of `processLayout`:
`(a, b) => a.zIndex - b.zIndex` keeps `a` before `b` iff
`a.zIndex ≤ b.zIndex`. -/
def zle (a b : ComponentSpec) : Prop := a.zIndex ≤ b.zIndex

instance : DecidableRel zle := fun a b => inferInstanceAs (Decidable (a.zIndex ≤ b.zIndex))

instance : IsTotal ComponentSpec zle := ⟨fun a b => le_total a.zIndex b.zIndex⟩

instance : IsTrans ComponentSpec zle := ⟨fun _ _ _ h h' => le_trans h h'⟩

/-- Step 4 of `processLayout` (layout-engine.ts line 36): a stable
ascending sort by `zIndex`.  `Array.prototype.sort` is stable, and a
stable sort for a total preorder is unique, so stable insertion sort is
an exact model. -/
def sortByZ (components : List ComponentSpec) : List ComponentSpec :=
  List.insertionSort zle components

/-- `processLayout` (layout-engine.ts lines 5-39): clamp, snap, resolve
collisions, sort by z-index. -/
def processLayout (raw : LayoutSpec) : LayoutSpec :=
  let comps1 := raw.components.map (clampComp raw.canvasWidth raw.canvasHeight)
  let comps2 := comps1.map snapComp
  let comps3 := resolveCollisions comps2
  let comps4 := sortByZ comps3
  { raw with components := comps4 }



/-- Step 1 of `processLayout` over the whole component list
(layout-engine.ts lines 9-21). -/
def clampStage (canvasWidth canvasHeight : ℚ) (comps : List ComponentSpec) : List ComponentSpec :=
  comps.map (clampComp canvasWidth canvasHeight)

/-- Step 2 of `processLayout` over the whole component list
(layout-engine.ts lines 24-30). -/
def snapStage (comps : List ComponentSpec) : List ComponentSpec :=
  comps.map snapComp

/-! ## Diff editor (`src/app/lib/apply-edits.ts`, `ComponentChangesSchema`
and `EditInstructionSchema` in schemas.ts) -/

/-- `ComponentChangesSchema` (schemas.ts): partial component changes. -/
structure ComponentChanges where
  position : Option Position := Option.none
  size : Option Size := Option.none
  rotation : Option ℚ := Option.none
  zIndex : Option ℚ := Option.none
  style : Option ComponentStyle := Option.none
  content : Option String := Option.none

/-- The discriminated union of edit operations (schemas.ts
`EditInstructionSchema.operations`). -/
inductive EditOp where
  | modify (componentId : String) (changes : ComponentChanges)
  | add (component : ComponentSpec)
  | remove (componentId : String)
  | reorder (componentId : String) (newZIndex : ℚ)

/-- `comp.style = {...comp.style, ...changes.style}` (apply-edits.ts lines
26-29): keys present in the update win, key by key. -/
def mergeStyle (old upd : ComponentStyle) : ComponentStyle :=
  { fill := upd.fill.or old.fill,
    stroke := upd.stroke.or old.stroke,
    strokeWidth := upd.strokeWidth.or old.strokeWidth,
    borderRadius := upd.borderRadius.or old.borderRadius,
    opacity := upd.opacity.or old.opacity,
    fontFamily := upd.fontFamily.or old.fontFamily,
    fontSize := upd.fontSize.or old.fontSize,
    fontWeight := upd.fontWeight.or old.fontWeight,
    textAlign := upd.textAlign.or old.textAlign,
    color := upd.color.or old.color,
    letterSpacing := upd.letterSpacing.or old.letterSpacing,
    lineHeight := upd.lineHeight.or old.lineHeight,
    gradient := upd.gradient.or old.gradient,
    shadow := upd.shadow.or old.shadow,
    shadows := upd.shadows.or old.shadows,
    textTransform := upd.textTransform.or old.textTransform }

/-- The `modify` body (apply-edits.ts lines 18-30): each provided field is
written onto the found component; `style` is shallow-merged. -/
def applyChanges (changes : ComponentChanges) (c : ComponentSpec) : ComponentSpec :=
  let c1 := match changes.position with | Option.some p => c.setPosition p | Option.none => c
  let c2 := match changes.size with | Option.some s => c1.setSize s | Option.none => c1
  let c3 := match changes.rotation with | Option.some r => c2.setRotation r | Option.none => c2
  let c4 := match changes.zIndex with | Option.some z => c3.setZIndex z | Option.none => c3
  let c5 := match changes.content with | Option.some t => c4.setContent (Option.some t) | Option.none => c4
  match changes.style with
  | Option.some st => c5.setStyle (mergeStyle c5.style st)
  | Option.none => c5

/-- `result.components.find((c) => c.id === op.componentId)` followed by an
in-place mutation of the found component: rewrite the FIRST component whose
id matches, leave the list unchanged when none does. -/
def modifyFirst (f : ComponentSpec → ComponentSpec) (cid : String) :
    List ComponentSpec → List ComponentSpec
  | [] => []
  | c :: rest => if c.id == cid then f c :: rest else c :: modifyFirst f cid rest

/-- One `switch (op.action)` arm of `applyEdits` (apply-edits.ts lines
14-62). -/
def applyOp (result : LayoutSpec) (op : EditOp) : LayoutSpec :=
  match op with
  | .modify cid changes =>
      { result with components := modifyFirst (applyChanges changes) cid result.components }
  | .add comp =>
      { result with
          components := result.components ++ [comp],
          layers :=
            match result.layers with
            | [] => []
            | l0 :: rest => { l0 with componentIds := l0.componentIds ++ [comp.id] } :: rest }
  | .remove cid =>
      { result with
          components := result.components.filter (fun c => !(c.id == cid)),
          layers := result.layers.map
            (fun l => { l with componentIds := l.componentIds.filter (fun i => !(i == cid)) }) }
  | .reorder cid z =>
      { result with components := modifyFirst (fun c => c.setZIndex z) cid result.components }

/-- `applyEdits` (apply-edits.ts lines 7-66): fold the operations over a
clone of the layout. -/
def applyEdits (layout : LayoutSpec) (operations : List EditOp) : LayoutSpec :=
  operations.foldl applyOp layout

/-! ## Renderer shadow resolution
(`src/app/lib/react-renderer.tsx` lines 16-27 and
`src/app/lib/svg-mapper.ts` lines 47-53 and 87-96) -/

/-- The CSS shadow template of `resolveBoxShadow`. -/
def shadowCss (s : Shadow) : String :=
  toString s.x ++ "px " ++ toString s.y ++ "px " ++ toString s.blur ++ "px " ++ s.color

/-- `resolveBoxShadow` (react-renderer.tsx lines 16-27): a non-empty
`shadows` array wins and is joined with commas; otherwise the single
`shadow`; otherwise no shadow. -/
def resolveBoxShadow (style : ComponentStyle) : Option String :=
  match style.shadows with
  | Option.some (s :: rest) =>
      Option.some (String.intercalate ", " ((s :: rest).map shadowCss))
  | _ =>
      match style.shadow with
      | Option.some s => Option.some (shadowCss s)
      | Option.none => Option.none

/-- `buildShadowFilter` (svg-mapper.ts lines 47-53): returns the filter
`def` markup and the `filter=` attribute. -/
def buildShadowFilter (shadow : Shadow) (id : String) : String × String :=
  ("<filter id=\"" ++ id ++ "\" x=\"-20%\" y=\"-20%\" width=\"140%\" height=\"140%\"><feDropShadow dx=\"" ++
      toString shadow.x ++ "\" dy=\"" ++ toString shadow.y ++ "\" stdDeviation=\"" ++
      toString (shadow.blur / 2) ++ "\" flood-color=\"" ++ shadow.color ++
      "\" flood-opacity=\"1\" /></filter>",
   "filter=\"url(#" ++ id ++ ")\"")

/-- The shadow part of the `button` branch of `componentToSVG`
(svg-mapper.ts lines 90-96): bump the global counter, and when the single
`shadow` is present push its filter def and emit the filter attribute.
The `shadows` array is never consulted anywhere in svg-mapper.ts.
Returns (pushed defs, shadow attribute, new counter). -/
def buttonShadowPart (s : ComponentStyle) (gradientCounter : Nat) :
    List String × String × Nat :=
  let counter := gradientCounter + 1
  let filterId := "btn-shadow-" ++ toString counter
  match s.shadow with
  | Option.some sh =>
      let sf := buildShadowFilter sh filterId
      ([sf.1], " " ++ sf.2, counter)
  | Option.none => ([], "", counter)

/-! ## Repair pass type coercion -/

/-- Is the first list a prefix of the second? -/
def listPrefixOf : List Char → List Char → Bool
  | [], _ => true
  | _ :: _, [] => false
  | a :: as, b :: bs => a == b && listPrefixOf as bs

/-- Is the first list a contiguous sublist of the second? -/
def listInfixOf : List Char → List Char → Bool
  | pat, [] => pat.isEmpty
  | pat, c :: rest => listPrefixOf pat (c :: rest) || listInfixOf pat rest

/-- JS `haystack.includes(needle)` — substring test. -/
def containsStr (s pat : String) : Bool := listInfixOf pat.toList s.toList

/-- Does the string contain any of the keywords? -/
def containsAny (s : String) (pats : List String) : Bool :=
  pats.any (fun p => containsStr s p)

/-- The 11 known kind names (schemas.ts `type` enum). -/
def parseType (s : String) : Option ComponentType :=
  if s == "text" then Option.some .text
  else if s == "shape" then Option.some .shape
  else if s == "icon" then Option.some .icon
  else if s == "image-placeholder" then Option.some .imagePlaceholder
  else if s == "button" then Option.some .button
  else if s == "card" then Option.some .card
  else if s == "container" then Option.some .container
  else if s == "avatar" then Option.some .avatar
  else if s == "badge" then Option.some .badge
  else if s == "divider" then Option.some .divider
  else if s == "input-field" then Option.some .inputField
  else Option.none

/-- JS `toLowerCase`, written over the character list so it is fully
evaluable. -/
def strToLower (s : String) : String := String.mk (s.data.map Char.toLower)

/-- Modelled from the spec: the repair pass's heuristic type coercion for
unknown component types (spec section 4.2, "Type coercion").  The
implementing file `src/app/lib/repair-components.ts` (imported as
`repairComponents` by the generate-layout route) is not present under
`src/`; only its caller is.  Per the spec, the lower-cased string is
matched against an ordered list of keyword rules terminating in the
unconditional `shape` fallback. -/
def coerceType (raw : String) : ComponentType :=
  let t := strToLower raw
  if containsAny t ["heading", "paragraph", "label", "title"] then .text
  else if containsAny t ["image", "img", "photo"] then .imagePlaceholder
  else if containsAny t ["line", "separator", "hr"] then .divider
  else if containsAny t ["list", "section", "group", "nav", "header", "footer"] then .container
  else .shape

/-- Modelled from the spec: repair leaves one of the 11 known kinds alone
and coerces anything else through the keyword rules (spec section 4.2). -/
def repairType (s : String) : ComponentType :=
  match parseType s with
  | Option.some t => t
  | Option.none => coerceType s

/-! ## Validation (`LayoutSpecSchema` constraints used by the claims) -/

/-- The style constraints of `ComponentStyleSchema` (schemas.ts). -/
def validStyle (st : ComponentStyle) : Bool :=
  (match st.borderRadius with | Option.none => true | Option.some r => decide (0 ≤ r)) &&
  (match st.opacity with | Option.none => true | Option.some o => decide (0 ≤ o) && decide (o ≤ 1)) &&
  (match st.fontSize with | Option.none => true | Option.some f => decide (8 ≤ f) && decide (f ≤ 200)) &&
  (match st.fontWeight with | Option.none => true | Option.some f => decide (100 ≤ f) && decide (f ≤ 900)) &&
  (match st.gradient with
   | Option.none => true
   | Option.some g => g.stops.all (fun p => decide (0 ≤ p.position) && decide (p.position ≤ 100))) &&
  (match st.shadow with | Option.none => true | Option.some sh => decide (0 ≤ sh.blur)) &&
  (match st.shadows with
   | Option.none => true
   | Option.some l => l.all (fun sh => decide (0 ≤ sh.blur)))

mutual

/-- The `ComponentSpecSchema` constraints (schemas.ts): sizes at least 1,
`zIndex` a non-negative integer, style constraints, children validated
recursively. -/
def validComp : ComponentSpec → Bool
  | .mk _ _ _ size _ z st children _ =>
    decide (1 ≤ size.width) && decide (1 ≤ size.height) &&
    decide (0 ≤ z) && (z.den == 1) && validStyle st &&
    (match children with
     | Option.none => true
     | Option.some cs => validCompList cs)

def validCompList : List ComponentSpec → Bool
  | [] => true
  | c :: cs => validComp c && validCompList cs

end

/-- The `LayoutSpecSchema` constraints on a layout's component list:
at most 50 top-level components, each valid. -/
def validLayout (L : LayoutSpec) : Bool :=
  decide (L.components.length ≤ 50) && validCompList L.components

/-! ## Relations used in the theorems -/

/-- `q` is an exact multiple of the 4px grid unit. -/
def GridAligned (q : ℚ) : Prop := ∃ k : ℤ, q = GRID * k

/-- Collision resolution may only push a component down: every field
agrees except that the `y` coordinate may have grown. -/
def SameExceptY (a b : ComponentSpec) : Prop :=
  a.id = b.id ∧ a.type = b.type ∧ a.size = b.size ∧ a.rotation = b.rotation ∧
  a.zIndex = b.zIndex ∧ a.style = b.style ∧ a.children = b.children ∧
  a.content = b.content ∧ a.position.x = b.position.x ∧ a.position.y ≤ b.position.y

/-! ## Concrete layouts and components used as test inputs -/

/-- Spec scenario C: two 100 by 100 components at (0,0) and (20,20), same z. -/
def cA3 : ComponentSpec :=
  .mk "a" .shape ⟨0, 0⟩ ⟨100, 100⟩ 0 0 {} Option.none Option.none

def cB3 : ComponentSpec :=
  .mk "b" .shape ⟨20, 20⟩ ⟨100, 100⟩ 0 0 {} Option.none Option.none

/-- A 12 by 15 component — oversized for a 10 by 10 canvas. -/
def cBig : ComponentSpec :=
  .mk "big" .shape ⟨3, 5⟩ ⟨12, 15⟩ 0 0 {} Option.none Option.none

def plainBackground : Background := ⟨.solid, "#ffffff", Option.none⟩

/-- Canvas 10 by 10 with a single 4 by 4 component at x = 6: clamping keeps
x = 6 (the largest legal x), but snapping rounds 6/4 up to 2 and writes
x = 8, so x + width = 12 exceeds the canvas. -/
def layoutC1 : LayoutSpec :=
  { id := "L1", canvasWidth := 10, canvasHeight := 10,
    background := plainBackground,
    components := [.mk "a" .shape ⟨6, 0⟩ ⟨4, 4⟩ 0 0 {} Option.none Option.none],
    layers := [] }

/-- A 40 by 40 component partly above the canvas. -/
def fitComp : ComponentSpec :=
  .mk "a" .shape ⟨30, -5⟩ ⟨40, 40⟩ 0 0 {} Option.none Option.none

/-- `fitComp` after clamping to (30, 0) and snapping to (32, 0). -/
def fitSnapped : ComponentSpec :=
  .mk "a" .shape ⟨32, 0⟩ ⟨40, 40⟩ 0 0 {} Option.none Option.none

/-- A layout whose components all fit the canvas (for the amended C1). -/
def layoutFit : LayoutSpec :=
  { id := "LF", canvasWidth := 100, canvasHeight := 100,
    background := plainBackground,
    components := [fitComp],
    layers := [] }

/-- Canvas 100 by 100 with A = (0,0) 100 by 50 and B = (0,20) 100 by 60 at
the same z.  First run: overlap 3000 > 25% of 5000, so B.y becomes
20 + 30 + 4 = 54 (outside the canvas).  Second run: clamping pulls B back
to y = 40, where the overlap 1000 ≤ 25% of 5000, so B stays — the second
run does not reproduce the first. -/
def layoutC2 : LayoutSpec :=
  { id := "L2", canvasWidth := 100, canvasHeight := 100,
    background := plainBackground,
    components := [.mk "a" .shape ⟨0, 0⟩ ⟨100, 50⟩ 0 0 {} Option.none Option.none,
                   .mk "b" .shape ⟨0, 20⟩ ⟨100, 60⟩ 0 0 {} Option.none Option.none],
    layers := [] }

/-- The value of `processLayout layoutC2` (B pushed to y = 54). -/
def layoutC2a : LayoutSpec :=
  { id := "L2", canvasWidth := 100, canvasHeight := 100,
    background := plainBackground,
    components := [.mk "a" .shape ⟨0, 0⟩ ⟨100, 50⟩ 0 0 {} Option.none Option.none,
                   .mk "b" .shape ⟨0, 54⟩ ⟨100, 60⟩ 0 0 {} Option.none Option.none],
    layers := [] }

/-- The value of `processLayout layoutC2a` (B re-clamped to y = 40). -/
def layoutC2b : LayoutSpec :=
  { id := "L2", canvasWidth := 100, canvasHeight := 100,
    background := plainBackground,
    components := [.mk "a" .shape ⟨0, 0⟩ ⟨100, 50⟩ 0 0 {} Option.none Option.none,
                   .mk "b" .shape ⟨0, 40⟩ ⟨100, 60⟩ 0 0 {} Option.none Option.none],
    layers := [] }

/-- Two stacked 100 by 30 components: the collision nudge writes
y = 0 + 30 + 4 = 34, which is not a multiple of the 4px grid. -/
def c4A : ComponentSpec := .mk "a" .shape ⟨0, 0⟩ ⟨100, 30⟩ 0 0 {} Option.none Option.none

def c4B : ComponentSpec := .mk "b" .shape ⟨0, 0⟩ ⟨100, 30⟩ 0 0 {} Option.none Option.none

def layoutC4 : LayoutSpec :=
  { id := "L4", canvasWidth := 200, canvasHeight := 200,
    background := plainBackground,
    components := [c4A, c4B],
    layers := [] }

/-- A layout with a single component "a" (stale-id edits leave it alone). -/
def layoutD : LayoutSpec :=
  { id := "LD", canvasWidth := 100, canvasHeight := 100,
    background := plainBackground,
    components := [.mk "a" .text ⟨0, 0⟩ ⟨10, 10⟩ 0 0 {} Option.none Option.none],
    layers := [⟨"main", "Main", true, false, ["a"]⟩] }

/-- A style with a fill and a two-stop gradient. -/
def styleFull : ComponentStyle :=
  { fill := Option.some "#ffffff",
    gradient := Option.some ⟨90, [⟨"#000000", 0⟩, ⟨"#ffffff", 100⟩]⟩ }

def compE : ComponentSpec :=
  .mk "a" .text ⟨0, 0⟩ ⟨10, 10⟩ 0 0 styleFull Option.none Option.none

/-- A style update that only sets `fontSize`. -/
def styleFontSize20 : ComponentStyle := { fontSize := Option.some 20 }

def chgE : ComponentChanges := { style := Option.some styleFontSize20 }

/-- A layout owning `compE`. -/
def layoutE : LayoutSpec :=
  { id := "LE", canvasWidth := 100, canvasHeight := 100,
    background := plainBackground,
    components := [compE],
    layers := [] }

def shadowRed : Shadow := ⟨9, 9, 8, "#ff0000"⟩

def shadowBlue : Shadow := ⟨1, 2, 4, "#0000ff"⟩

/-- A style carrying both a single `shadow` and a non-empty `shadows`. -/
def stBoth : ComponentStyle :=
  { shadow := Option.some shadowRed, shadows := Option.some [shadowBlue] }

/-- Same `shadows` as `stBoth` but no single `shadow`. -/
def stOnlyList : ComponentStyle := { shadows := Option.some [shadowBlue] }

/-! ## Basic lemmas about the field accessors and updaters -/

@[simp] theorem setPosition_id (c : ComponentSpec) (p : Position) : (c.setPosition p).id = c.id := by
  cases c; rfl

@[simp] theorem setPosition_type (c : ComponentSpec) (p : Position) : (c.setPosition p).type = c.type := by
  cases c; rfl

@[simp] theorem setPosition_position (c : ComponentSpec) (p : Position) : (c.setPosition p).position = p := by
  cases c; rfl

@[simp] theorem setPosition_size (c : ComponentSpec) (p : Position) : (c.setPosition p).size = c.size := by
  cases c; rfl

@[simp] theorem setPosition_rotation (c : ComponentSpec) (p : Position) : (c.setPosition p).rotation = c.rotation := by
  cases c; rfl

@[simp] theorem setPosition_zIndex (c : ComponentSpec) (p : Position) : (c.setPosition p).zIndex = c.zIndex := by
  cases c; rfl

@[simp] theorem setPosition_style (c : ComponentSpec) (p : Position) : (c.setPosition p).style = c.style := by
  cases c; rfl

@[simp] theorem setPosition_children (c : ComponentSpec) (p : Position) : (c.setPosition p).children = c.children := by
  cases c; rfl

@[simp] theorem setPosition_content (c : ComponentSpec) (p : Position) : (c.setPosition p).content = c.content := by
  cases c; rfl

@[simp] theorem setPosition_setPosition (c : ComponentSpec) (p q : Position) :
    (c.setPosition p).setPosition q = c.setPosition q := by
  cases c; rfl

@[simp] theorem setPosY_id (c : ComponentSpec) (v : ℚ) : (c.setPosY v).id = c.id := by
  cases c; rfl

@[simp] theorem setPosY_type (c : ComponentSpec) (v : ℚ) : (c.setPosY v).type = c.type := by
  cases c; rfl

@[simp] theorem setPosY_position (c : ComponentSpec) (v : ℚ) :
    (c.setPosY v).position = { x := c.position.x, y := v } := by
  cases c; rfl

@[simp] theorem setPosY_size (c : ComponentSpec) (v : ℚ) : (c.setPosY v).size = c.size := by
  cases c; rfl

@[simp] theorem setPosY_rotation (c : ComponentSpec) (v : ℚ) : (c.setPosY v).rotation = c.rotation := by
  cases c; rfl

@[simp] theorem setPosY_zIndex (c : ComponentSpec) (v : ℚ) : (c.setPosY v).zIndex = c.zIndex := by
  cases c; rfl

@[simp] theorem setPosY_style (c : ComponentSpec) (v : ℚ) : (c.setPosY v).style = c.style := by
  cases c; rfl

@[simp] theorem setPosY_children (c : ComponentSpec) (v : ℚ) : (c.setPosY v).children = c.children := by
  cases c; rfl

@[simp] theorem setPosY_content (c : ComponentSpec) (v : ℚ) : (c.setPosY v).content = c.content := by
  cases c; rfl

/-! ## `resolveCollisions` unfolding -/

@[simp] theorem resolveCollisions_nil : resolveCollisions [] = [] := rfl

theorem resolveAux_of_length_le : ∀ (n : Nat) (l : List ComponentSpec), l.length ≤ n →
    resolveAux n l = resolveAux l.length l := by
  intro n
  induction n with
  | zero =>
    intro l hl
    rw [Nat.le_zero] at hl
    rw [List.length_eq_zero] at hl
    subst hl
    rfl
  | succ n ih =>
    intro l hl
    cases l with
    | nil => rfl
    | cons a rest =>
      show a :: resolveAux n (rest.map (resolveStep a)) =
        a :: resolveAux rest.length (rest.map (resolveStep a))
      have hlen : (rest.map (resolveStep a)).length = rest.length := List.length_map _ _
      have hle : (rest.map (resolveStep a)).length ≤ n := by
        rw [hlen]; exact Nat.le_of_succ_le_succ hl
      rw [ih (rest.map (resolveStep a)) hle, hlen]

theorem resolveCollisions_cons (a : ComponentSpec) (rest : List ComponentSpec) :
    resolveCollisions (a :: rest) = a :: resolveCollisions (rest.map (resolveStep a)) := by
  show a :: resolveAux rest.length (rest.map (resolveStep a)) =
    a :: resolveAux (rest.map (resolveStep a)).length (rest.map (resolveStep a))
  rw [List.length_map]

/-! ## The collision step only pushes the second component down (C10) -/

theorem SameExceptY.refl (a : ComponentSpec) : SameExceptY a a :=
  ⟨rfl, rfl, rfl, rfl, rfl, rfl, rfl, rfl, rfl, le_refl _⟩

theorem SameExceptY.trans {a b c : ComponentSpec} (h1 : SameExceptY a b) (h2 : SameExceptY b c) :
    SameExceptY a c := by
  obtain ⟨e1, e2, e3, e4, e5, e6, e7, e8, e9, hy⟩ := h1
  obtain ⟨f1, f2, f3, f4, f5, f6, f7, f8, f9, hy'⟩ := h2
  exact ⟨e1.trans f1, e2.trans f2, e3.trans f3, e4.trans f4, e5.trans f5, e6.trans f6,
    e7.trans f7, e8.trans f8, e9.trans f9, hy.trans hy'⟩

/-- From the `intersects` guard: `b`'s top is strictly above `a`'s bottom. -/
theorem lt_of_intersects {a b : ComponentSpec} (h : intersects a b = true) :
    b.position.y < a.position.y + a.size.height := by
  rw [intersects] at h
  simp only [Bool.not_eq_true', Bool.or_eq_false_iff, decide_eq_false_iff_not, not_le] at h
  exact h.1.2

theorem sameExceptY_resolveStep (a b : ComponentSpec) : SameExceptY b (resolveStep a b) := by
  simp only [resolveStep]
  split_ifs with hz hi hr hy
  · exact SameExceptY.refl b
  · exact SameExceptY.refl b
  · refine ⟨?_, ?_, ?_, ?_, ?_, ?_, ?_, ?_, ?_, ?_⟩ <;> simp [GRID]
    linarith
  · exact SameExceptY.refl b
  · exact SameExceptY.refl b

theorem forall₂_trans_of {α : Type} {R : α → α → Prop}
    (ht : ∀ a b c, R a b → R b c → R a c) :
    ∀ {l m n : List α}, List.Forall₂ R l m → List.Forall₂ R m n → List.Forall₂ R l n := by
  intro l m n h1
  induction h1 generalizing n with
  | nil =>
    intro h2
    cases h2
    exact List.Forall₂.nil
  | cons hab htl ih =>
    intro h2
    cases h2 with
    | cons hbc htl2 => exact List.Forall₂.cons (ht _ _ _ hab hbc) (ih htl2)

theorem forall₂_map_resolveStep (a : ComponentSpec) (l : List ComponentSpec) :
    List.Forall₂ SameExceptY l (l.map (resolveStep a)) := by
  induction l with
  | nil => exact List.Forall₂.nil
  | cons c rest ih => exact List.Forall₂.cons (sameExceptY_resolveStep a c) ih

theorem resolveAux_sameExceptY : ∀ (n : Nat) (l : List ComponentSpec),
    List.Forall₂ SameExceptY l (resolveAux n l) := by
  intro n
  induction n with
  | zero =>
    intro l
    cases l with
    | nil => exact List.Forall₂.nil
    | cons a rest => exact List.forall₂_same.mpr (fun x _ => SameExceptY.refl x)
  | succ n ih =>
    intro l
    cases l with
    | nil => exact List.Forall₂.nil
    | cons a rest =>
      show List.Forall₂ SameExceptY (a :: rest)
        (a :: resolveAux n (rest.map (resolveStep a)))
      refine List.Forall₂.cons (SameExceptY.refl a) ?_
      exact forall₂_trans_of (fun _ _ _ h1 h2 => h1.trans h2)
        (forall₂_map_resolveStep a rest) (ih (rest.map (resolveStep a)))

/-- C10: collision resolution keeps the list length and order, keeps every
field of every component except possibly the `y` coordinate of a
later-colliding component, and never decreases a `y` coordinate. -/
theorem C10_collision_frame (l : List ComponentSpec) :
    List.Forall₂ SameExceptY l (resolveCollisions l) ∧
    (resolveCollisions l).length = l.length := by
  have h := resolveAux_sameExceptY l.length l
  exact ⟨h, (List.Forall₂.length_eq h).symm⟩

/-! ## C3: the collision threshold behaviour on a colliding pair -/

/-- C3: for two same-zIndex intersecting components (with schema-valid
sizes), collision resolution leaves both unchanged when the overlap area
is at most 25% of the smaller component's area; above the threshold only
the second component moves, strictly downward, to exactly
`second.y + (first.bottom - second.top) + GRID`. -/
theorem C3_collision_threshold (a b : ComponentSpec)
    (hz : a.zIndex = b.zIndex)
    (hi : intersects a b = true)
    (haw : 1 ≤ a.size.width) (hah : 1 ≤ a.size.height)
    (hbw : 1 ≤ b.size.width) (hbh : 1 ≤ b.size.height) :
    (overlapArea a b ≤ 0.25 * min (a.size.width * a.size.height) (b.size.width * b.size.height) →
      resolveCollisions [a, b] = [a, b]) ∧
    (0.25 * min (a.size.width * a.size.height) (b.size.width * b.size.height) < overlapArea a b →
      resolveCollisions [a, b] =
        [a, b.setPosY (b.position.y + (a.position.y + a.size.height - b.position.y) + GRID)] ∧
      b.position.y < b.position.y + (a.position.y + a.size.height - b.position.y) + GRID) := by
  have hsm : 0 < min (a.size.width * a.size.height) (b.size.width * b.size.height) := by
    apply lt_min <;> nlinarith
  have hnz : ¬ a.zIndex ≠ b.zIndex := by simp [hz]
  have hcons : resolveCollisions [a, b] = [a, resolveStep a b] := by
    rw [resolveCollisions_cons, List.map_cons, List.map_nil, resolveCollisions_cons,
      List.map_nil, resolveCollisions_nil]
  have hb : b.position.y < a.position.y + a.size.height := lt_of_intersects hi
  constructor
  · intro hle
    rw [hcons]
    have hstep : resolveStep a b = b := by
      simp only [resolveStep]
      rw [if_neg hnz, if_pos hi, if_pos ((div_le_iff₀ hsm).mpr (by linarith))]
    rw [hstep]
  · intro hgt
    have hstep : resolveStep a b =
        b.setPosY (b.position.y + (a.position.y + a.size.height - b.position.y) + GRID) := by
      simp only [resolveStep]
      rw [if_neg hnz, if_pos hi, if_neg (not_le.mpr ((lt_div_iff₀ hsm).mpr (by linarith))),
        if_pos (by linarith : a.position.y + a.size.height - b.position.y > 0)]
    refine ⟨by rw [hcons, hstep], ?_⟩
    rw [GRID]
    linarith

/-- Witness for C3 at spec scenario C: the overlap 6400 exceeds 25% of
10000, so the second component moves down to y = 20 + (100 - 20) + 4. -/
theorem C3_collision_threshold_witness :
    resolveCollisions [cA3, cB3] =
      [cA3, cB3.setPosY (cB3.position.y + (cA3.position.y + cA3.size.height - cB3.position.y) + GRID)] ∧
    cB3.position.y < cB3.position.y + (cA3.position.y + cA3.size.height - cB3.position.y) + GRID :=
  (C3_collision_threshold cA3 cB3 rfl
      (by norm_num [intersects, cA3, cB3, ComponentSpec.position, ComponentSpec.size])
      (by norm_num [cA3, ComponentSpec.size])
      (by norm_num [cA3, ComponentSpec.size])
      (by norm_num [cB3, ComponentSpec.size])
      (by norm_num [cB3, ComponentSpec.size])).2
    (by norm_num [overlapArea, cA3, cB3, ComponentSpec.position, ComponentSpec.size,
      min_def, max_def])

/-! ## C9: oversized components are pinned to the origin by clamping -/

/-- C9: in the clamping step of `processLayout`, a component wider than the
canvas gets `x = 0` (the lower bound wins) and still overflows the right
edge; similarly for height/y; and clamped coordinates are never negative
for any component. -/
theorem C9_oversized_clamp (canvasWidth canvasHeight : ℚ) (c : ComponentSpec) :
    (canvasWidth < c.size.width →
      (clampComp canvasWidth canvasHeight c).position.x = 0 ∧
      canvasWidth <
        (clampComp canvasWidth canvasHeight c).position.x +
          (clampComp canvasWidth canvasHeight c).size.width) ∧
    (canvasHeight < c.size.height →
      (clampComp canvasWidth canvasHeight c).position.y = 0 ∧
      canvasHeight <
        (clampComp canvasWidth canvasHeight c).position.y +
          (clampComp canvasWidth canvasHeight c).size.height) ∧
    0 ≤ (clampComp canvasWidth canvasHeight c).position.x ∧
    0 ≤ (clampComp canvasWidth canvasHeight c).position.y := by
  refine ⟨?_, ?_, ?_, ?_⟩
  · intro hw
    have hx : (clampComp canvasWidth canvasHeight c).position.x = 0 := by
      simp only [clampComp, setPosition_position, clampCoord]
      have : min c.position.x (canvasWidth - c.size.width) ≤ canvasWidth - c.size.width :=
        min_le_right _ _
      have hneg : min c.position.x (canvasWidth - c.size.width) ≤ 0 := by linarith
      exact max_eq_left hneg
    refine ⟨hx, ?_⟩
    rw [hx]
    simp only [clampComp, setPosition_size]
    linarith
  · intro hh
    have hy : (clampComp canvasWidth canvasHeight c).position.y = 0 := by
      simp only [clampComp, setPosition_position, clampCoord]
      have : min c.position.y (canvasHeight - c.size.height) ≤ canvasHeight - c.size.height :=
        min_le_right _ _
      have hneg : min c.position.y (canvasHeight - c.size.height) ≤ 0 := by linarith
      exact max_eq_left hneg
    refine ⟨hy, ?_⟩
    rw [hy]
    simp only [clampComp, setPosition_size]
    linarith
  · simp only [clampComp, setPosition_position, clampCoord]
    exact le_max_left _ _
  · simp only [clampComp, setPosition_position, clampCoord]
    exact le_max_left _ _

/-- Witness for C9: a 12 by 15 component on a 10 by 10 canvas is pinned to
(0,0) and overflows both edges. -/
theorem C9_oversized_clamp_witness :
    ((clampComp 10 10 cBig).position.x = 0 ∧
      (10:ℚ) < (clampComp 10 10 cBig).position.x + (clampComp 10 10 cBig).size.width) ∧
    ((clampComp 10 10 cBig).position.y = 0 ∧
      (10:ℚ) < (clampComp 10 10 cBig).position.y + (clampComp 10 10 cBig).size.height) :=
  ⟨(C9_oversized_clamp 10 10 cBig).1 (by norm_num [cBig, ComponentSpec.size]),
   (C9_oversized_clamp 10 10 cBig).2.1 (by norm_num [cBig, ComponentSpec.size])⟩

/-! ## C1: bounds after clamping; bounds can be violated by later stages -/

/-- Amended C1: after the clamping stage, every component that fits the
canvas satisfies the bounds invariant.  (The full `processLayout` pipeline
does not preserve it: see the counterexample.) -/
theorem C1_bounds_after_clamp (L : LayoutSpec)
    (hfit : ∀ c ∈ L.components, c.size.width ≤ L.canvasWidth ∧ c.size.height ≤ L.canvasHeight) :
    ∀ c ∈ clampStage L.canvasWidth L.canvasHeight L.components,
      0 ≤ c.position.x ∧ c.position.x + c.size.width ≤ L.canvasWidth ∧
      0 ≤ c.position.y ∧ c.position.y + c.size.height ≤ L.canvasHeight := by
  intro c hc
  rw [clampStage, List.mem_map] at hc
  obtain ⟨c₀, hc₀, rfl⟩ := hc
  obtain ⟨hw, hh⟩ := hfit c₀ hc₀
  simp only [clampComp, setPosition_position, setPosition_size, clampCoord]
  refine ⟨le_max_left _ _, ?_, le_max_left _ _, ?_⟩
  · have h1 : min c₀.position.x (L.canvasWidth - c₀.size.width) ≤
        L.canvasWidth - c₀.size.width := min_le_right _ _
    have h2 : max 0 (min c₀.position.x (L.canvasWidth - c₀.size.width)) ≤
        L.canvasWidth - c₀.size.width := max_le (by linarith) h1
    linarith
  · have h1 : min c₀.position.y (L.canvasHeight - c₀.size.height) ≤
        L.canvasHeight - c₀.size.height := min_le_right _ _
    have h2 : max 0 (min c₀.position.y (L.canvasHeight - c₀.size.height)) ≤
        L.canvasHeight - c₀.size.height := max_le (by linarith) h1
    linarith

/-- Witness for the amended C1 on `layoutFit` (one 40 by 40 component at
(30,-5) on a 100 by 100 canvas). -/
theorem C1_bounds_after_clamp_witness :
    0 ≤ (clampComp layoutFit.canvasWidth layoutFit.canvasHeight fitComp).position.x ∧
    (clampComp layoutFit.canvasWidth layoutFit.canvasHeight fitComp).position.x +
      (clampComp layoutFit.canvasWidth layoutFit.canvasHeight fitComp).size.width ≤
      layoutFit.canvasWidth ∧
    0 ≤ (clampComp layoutFit.canvasWidth layoutFit.canvasHeight fitComp).position.y ∧
    (clampComp layoutFit.canvasWidth layoutFit.canvasHeight fitComp).position.y +
      (clampComp layoutFit.canvasWidth layoutFit.canvasHeight fitComp).size.height ≤
      layoutFit.canvasHeight :=
  C1_bounds_after_clamp layoutFit
    (by
      intro c hc
      rw [show layoutFit.components = [fitComp] from rfl, List.mem_singleton] at hc
      subst hc
      constructor <;> norm_num [fitComp, layoutFit, ComponentSpec.size])
    (clampComp layoutFit.canvasWidth layoutFit.canvasHeight fitComp)
    (by
      rw [show layoutFit.components = [fitComp] from rfl]
      simp [clampStage])

/-- C1 counterexample: `layoutC1` is schema-valid, yet after the full
`processLayout` its single component has x + width = 12 > 10: grid
snapping (which runs after clamping) pushed it past the right canvas
edge. -/
theorem C1_counterexample :
    validLayout layoutC1 = true ∧
    ¬ (∀ c ∈ (processLayout layoutC1).components,
        0 ≤ c.position.x ∧ c.position.x + c.size.width ≤ layoutC1.canvasWidth ∧
        0 ≤ c.position.y ∧ c.position.y + c.size.height ≤ layoutC1.canvasHeight) := by
  constructor
  · decide
  · intro hall
    have hx : (processLayout layoutC1).components.map (fun c => c.position.x + c.size.width) =
        [12] := by
      norm_num [processLayout, layoutC1, clampComp, clampCoord, snapComp, snapCoord,
        resolveCollisions, resolveAux, sortByZ, List.insertionSort, resolveStep,
        ComponentSpec.setPosition, GRID, round_eq, ComponentSpec.position,
        ComponentSpec.size, min_def, max_def]
    obtain ⟨c0, hc0⟩ : ∃ c0, (processLayout layoutC1).components = [c0] := by
      cases h' : (processLayout layoutC1).components with
      | nil => rw [h'] at hx; simp at hx
      | cons x xs =>
        cases xs with
        | nil => exact ⟨x, rfl⟩
        | cons y ys => rw [h'] at hx; simp at hx
    have hmem : c0 ∈ (processLayout layoutC1).components := by
      rw [hc0]; exact List.mem_singleton.mpr rfl
    have hb := (hall c0 hmem).2.1
    rw [hc0] at hx
    simp only [List.map_cons, List.map_nil, List.cons.injEq, and_true] at hx
    rw [show layoutC1.canvasWidth = 10 from rfl] at hb
    rw [hx] at hb
    norm_num at hb

/-! ## C2: per-stage idempotence; the full pipeline is not idempotent -/

theorem clampCoord_idem (q m : ℚ) : clampCoord (clampCoord q m) m = clampCoord q m := by
  unfold clampCoord
  rcases le_total 0 (min q m) with hpos | hneg
  · rw [max_eq_right hpos, min_eq_left (min_le_right q m), max_eq_right hpos]
  · rw [max_eq_left hneg]
    rcases le_total (0:ℚ) m with h0 | h0
    · rw [min_eq_left h0, max_self]
    · rw [min_eq_right h0, max_eq_left h0]

theorem snapCoord_idem (q : ℚ) : snapCoord (snapCoord q) = snapCoord q := by
  unfold snapCoord
  have h4 : (GRID : ℚ) ≠ 0 := by rw [GRID]; norm_num
  rw [mul_div_cancel_right₀ _ h4, round_intCast]

theorem clampComp_idem (cw ch : ℚ) (c : ComponentSpec) :
    clampComp cw ch (clampComp cw ch c) = clampComp cw ch c := by
  simp only [clampComp, setPosition_position, setPosition_size, setPosition_setPosition]
  rw [clampCoord_idem, clampCoord_idem]

theorem snapComp_idem (c : ComponentSpec) : snapComp (snapComp c) = snapComp c := by
  simp only [snapComp, setPosition_position, setPosition_setPosition]
  rw [snapCoord_idem, snapCoord_idem]

/-- Amended C2: each single stage of `processLayout` is idempotent —
clamping, snapping, and the z-sort.  (The composed pipeline is not: see
the counterexample, where a collision nudge is undone by re-clamping.) -/
theorem C2_stages_idempotent (cw ch : ℚ) (l : List ComponentSpec) :
    clampStage cw ch (clampStage cw ch l) = clampStage cw ch l ∧
    snapStage (snapStage l) = snapStage l ∧
    sortByZ (sortByZ l) = sortByZ l := by
  refine ⟨?_, ?_, ?_⟩
  · induction l with
    | nil => rfl
    | cons c rest ih =>
      simp only [clampStage, List.map_cons] at ih ⊢
      rw [clampComp_idem]
      exact congrArg _ ih
  · induction l with
    | nil => rfl
    | cons c rest ih =>
      simp only [snapStage, List.map_cons] at ih ⊢
      rw [snapComp_idem]
      exact congrArg _ ih
  · exact List.Sorted.insertionSort_eq (List.sorted_insertionSort zle l)

/-- C2 counterexample: `layoutC2` is schema-valid, the first `processLayout`
pushes component "b" to y = 54 (below the canvas), and the second run
re-clamps it to y = 40 where the collision threshold no longer fires — so
`processLayout (processLayout L) ≠ processLayout L`. -/
theorem C2_counterexample :
    validLayout layoutC2 = true ∧
    processLayout (processLayout layoutC2) ≠ processLayout layoutC2 := by
  have h1 : processLayout layoutC2 = layoutC2a := by
    norm_num [processLayout, layoutC2, layoutC2a, clampComp, clampCoord, snapComp, snapCoord,
      resolveCollisions, resolveAux, sortByZ, List.insertionSort, List.orderedInsert, resolveStep,
      intersects, overlapArea, zle, ComponentSpec.setPosition, ComponentSpec.setPosY,
      GRID, round_eq, ComponentSpec.position, ComponentSpec.size, ComponentSpec.zIndex,
      min_def, max_def]
  have h2 : processLayout layoutC2a = layoutC2b := by
    norm_num [processLayout, layoutC2a, layoutC2b, clampComp, clampCoord, snapComp, snapCoord,
      resolveCollisions, resolveAux, sortByZ, List.insertionSort, List.orderedInsert, resolveStep,
      intersects, overlapArea, zle, ComponentSpec.setPosition, ComponentSpec.setPosY,
      GRID, round_eq, ComponentSpec.position, ComponentSpec.size, ComponentSpec.zIndex,
      min_def, max_def]
  refine ⟨by decide, ?_⟩
  rw [h1, h2]
  intro h
  have hproj := congrArg (fun L => L.components.map (fun c => c.position.y)) h
  norm_num [layoutC2a, layoutC2b, ComponentSpec.position] at hproj

/-! ## C4: x stays grid-aligned, y alignment is broken by collision nudges -/

theorem gridAligned_snapCoord (q : ℚ) : GridAligned (snapCoord q) :=
  ⟨round (q / GRID), mul_comm _ _⟩

theorem mem_of_forall₂ {α : Type} {R : α → α → Prop} :
    ∀ {l m : List α}, List.Forall₂ R l m → ∀ b ∈ m, ∃ a ∈ l, R a b := by
  intro l m h
  induction h with
  | nil => intro b hb; cases hb
  | cons hab _ ih =>
    intro b hb
    rcases List.mem_cons.mp hb with rfl | hb'
    · exact ⟨_, List.mem_cons_self _ _, hab⟩
    · obtain ⟨a, ha, hr⟩ := ih b hb'
      exact ⟨a, List.mem_cons_of_mem _ ha, hr⟩

theorem mem_sortByZ {c : ComponentSpec} {l : List ComponentSpec} :
    c ∈ sortByZ l ↔ c ∈ l :=
  (List.perm_insertionSort zle l).mem_iff

/-- Amended C4: after `processLayout`, every component's `x` is an exact
multiple of the 4px grid; both coordinates are grid-multiples right after
the snapping stage.  (The `y` grid invariant does not survive collision
resolution: see the counterexample.) -/
theorem C4_grid_aligned (L : LayoutSpec) :
    (∀ c ∈ (processLayout L).components, GridAligned c.position.x) ∧
    (∀ c ∈ snapStage (clampStage L.canvasWidth L.canvasHeight L.components),
      GridAligned c.position.x ∧ GridAligned c.position.y) := by
  constructor
  · intro c hc
    have hc' : c ∈ resolveCollisions
        ((L.components.map (clampComp L.canvasWidth L.canvasHeight)).map snapComp) :=
      mem_sortByZ.mp hc
    obtain ⟨a, ha, hr⟩ := mem_of_forall₂ (C10_collision_frame _).1 c hc'
    rw [List.mem_map] at ha
    obtain ⟨a₀, _, rfl⟩ := ha
    have hx : (snapComp a₀).position.x = c.position.x := hr.2.2.2.2.2.2.2.2.1
    rw [← hx]
    simp only [snapComp, setPosition_position]
    exact gridAligned_snapCoord _
  · intro c hc
    rw [snapStage, List.mem_map] at hc
    obtain ⟨c₀, _, rfl⟩ := hc
    simp only [snapComp, setPosition_position]
    exact ⟨gridAligned_snapCoord _, gridAligned_snapCoord _⟩

/-- Witness for the amended C4: grid alignment of the processed component
of `layoutFit` and of a snapped component of `layoutC4`. -/
theorem C4_grid_aligned_witness :
    GridAligned fitSnapped.position.x ∧
    (GridAligned (snapComp (clampComp layoutC4.canvasWidth layoutC4.canvasHeight c4A)).position.x ∧
     GridAligned (snapComp (clampComp layoutC4.canvasWidth layoutC4.canvasHeight c4A)).position.y) := by
  have hcomps : (processLayout layoutFit).components = [fitSnapped] := by
    norm_num [processLayout, layoutFit, fitComp, fitSnapped, clampComp, clampCoord, snapComp,
      snapCoord, resolveCollisions, resolveAux, sortByZ, List.insertionSort, resolveStep,
      ComponentSpec.setPosition, GRID, round_eq, ComponentSpec.position,
      ComponentSpec.size, min_def, max_def]
  refine ⟨?_, ?_⟩
  · exact (C4_grid_aligned layoutFit).1 fitSnapped
      (by rw [hcomps]; exact List.mem_singleton.mpr rfl)
  · exact (C4_grid_aligned layoutC4).2
      (snapComp (clampComp layoutC4.canvasWidth layoutC4.canvasHeight c4A))
      (by
        rw [show layoutC4.components = [c4A, c4B] from rfl]
        simp [snapStage, clampStage])

/-- C4 counterexample: in the schema-valid `layoutC4`, the collision nudge
writes y = 0 + 30 + 4 = 34 on component "b", and 34 is not a multiple of
the 4px grid. -/
theorem C4_counterexample :
    validLayout layoutC4 = true ∧
    ¬ (∀ c ∈ (processLayout layoutC4).components,
        GridAligned c.position.x ∧ GridAligned c.position.y) := by
  refine ⟨by decide, ?_⟩
  intro hall
  have hy : (processLayout layoutC4).components.map (fun c => c.position.y) = [0, 34] := by
    norm_num [processLayout, layoutC4, c4A, c4B, clampComp, clampCoord, snapComp, snapCoord,
      resolveCollisions, resolveAux, sortByZ, List.insertionSort, List.orderedInsert, resolveStep,
      intersects, overlapArea, zle, ComponentSpec.setPosition, ComponentSpec.setPosY,
      GRID, round_eq, ComponentSpec.position, ComponentSpec.size, ComponentSpec.zIndex,
      min_def, max_def]
  obtain ⟨c0, c1, hc⟩ : ∃ c0 c1, (processLayout layoutC4).components = [c0, c1] := by
    cases h' : (processLayout layoutC4).components with
    | nil => rw [h'] at hy; simp at hy
    | cons x xs =>
      cases xs with
      | nil => rw [h'] at hy; simp at hy
      | cons y ys =>
        cases ys with
        | nil => exact ⟨x, y, rfl⟩
        | cons z zs => rw [h'] at hy; simp at hy
  have hmem : c1 ∈ (processLayout layoutC4).components := by
    rw [hc]
    exact List.mem_cons_of_mem _ (List.mem_singleton.mpr rfl)
  obtain ⟨k, hk⟩ := (hall c1 hmem).2
  rw [hc] at hy
  simp only [List.map_cons, List.map_nil, List.cons.injEq, and_true] at hy
  rw [hy.2] at hk
  rw [GRID] at hk
  have hk2 : (17:ℚ) = 2 * k := by linarith
  have hk3 : (17:ℤ) = 2 * k := by exact_mod_cast hk2
  omega

@[simp] theorem setSize_id (c : ComponentSpec) (a : Size) : (c.setSize a).id = c.id := by
  cases c; rfl

@[simp] theorem setSize_style (c : ComponentSpec) (a : Size) : (c.setSize a).style = c.style := by
  cases c; rfl

@[simp] theorem setRotation_id (c : ComponentSpec) (a : ℚ) : (c.setRotation a).id = c.id := by
  cases c; rfl

@[simp] theorem setRotation_style (c : ComponentSpec) (a : ℚ) : (c.setRotation a).style = c.style := by
  cases c; rfl

@[simp] theorem setZIndex_id (c : ComponentSpec) (a : ℚ) : (c.setZIndex a).id = c.id := by
  cases c; rfl

@[simp] theorem setZIndex_style (c : ComponentSpec) (a : ℚ) : (c.setZIndex a).style = c.style := by
  cases c; rfl

@[simp] theorem setStyle_id (c : ComponentSpec) (a : ComponentStyle) : (c.setStyle a).id = c.id := by
  cases c; rfl

@[simp] theorem setContent_id (c : ComponentSpec) (a : Option String) : (c.setContent a).id = c.id := by
  cases c; rfl

@[simp] theorem setContent_style (c : ComponentSpec) (a : Option String) : (c.setContent a).style = c.style := by
  cases c; rfl

@[simp] theorem setStyle_style (c : ComponentSpec) (st : ComponentStyle) : (c.setStyle st).style = st := by
  cases c; rfl

/-! ## C6: stale-id modify/reorder operations are silent no-ops -/

theorem modifyFirst_eq_of_forall_ne (f : ComponentSpec → ComponentSpec) (cid : String)
    (l : List ComponentSpec) (h : ∀ c ∈ l, c.id ≠ cid) : modifyFirst f cid l = l := by
  induction l with
  | nil => rfl
  | cons c rest ih =>
    rw [modifyFirst, if_neg (by simp [h c (List.mem_cons_self c rest)])]
    exact congrArg _ (ih (fun x hx => h x (List.mem_cons_of_mem _ hx)))

/-- C6: a `modify` or `reorder` whose componentId matches no top-level
component returns the layout unchanged, never raises (total function), and
leaves the rest of the batch to apply as if the stale op were absent. -/
theorem C6_stale_id_noop (L : LayoutSpec) (cid : String) (chg : ComponentChanges) (z : ℚ)
    (rest : List EditOp) (h : ∀ c ∈ L.components, c.id ≠ cid) :
    applyEdits L [.modify cid chg] = L ∧
    applyEdits L [.reorder cid z] = L ∧
    applyEdits L (.modify cid chg :: rest) = applyEdits L rest ∧
    applyEdits L (.reorder cid z :: rest) = applyEdits L rest := by
  have hm : applyOp L (.modify cid chg) = L := by
    show { L with components := modifyFirst (applyChanges chg) cid L.components } = L
    rw [modifyFirst_eq_of_forall_ne _ _ _ h]
  have hr : applyOp L (.reorder cid z) = L := by
    show { L with components := modifyFirst (fun c => c.setZIndex z) cid L.components } = L
    rw [modifyFirst_eq_of_forall_ne _ _ _ h]
  refine ⟨hm, hr, ?_, ?_⟩
  · show List.foldl applyOp (applyOp L (.modify cid chg)) rest = List.foldl applyOp L rest
    rw [hm]
  · show List.foldl applyOp (applyOp L (.reorder cid z)) rest = List.foldl applyOp L rest
    rw [hr]

/-- Witness for C6: a modify and a reorder aimed at the absent id "ghost"
leave `layoutD` untouched and do not disturb a following remove. -/
theorem C6_stale_id_noop_witness :
    applyEdits layoutD [.modify "ghost" {}] = layoutD ∧
    applyEdits layoutD [.reorder "ghost" 7] = layoutD ∧
    applyEdits layoutD (.modify "ghost" {} :: [.remove "a"]) = applyEdits layoutD [.remove "a"] ∧
    applyEdits layoutD (.reorder "ghost" 7 :: [.remove "a"]) = applyEdits layoutD [.remove "a"] :=
  C6_stale_id_noop layoutD "ghost" {} 7 [.remove "a"] (by decide)

/-! ## C7: style merge preserves unnamed fields and applies named ones -/

theorem applyChanges_id (chg : ComponentChanges) (c : ComponentSpec) :
    (applyChanges chg c).id = c.id := by
  unfold applyChanges
  cases chg.position <;> cases chg.size <;> cases chg.rotation <;> cases chg.zIndex <;>
    cases chg.content <;> cases chg.style <;> simp

theorem applyChanges_style_of_some (chg : ComponentChanges) (c : ComponentSpec)
    (st : ComponentStyle) (h : chg.style = Option.some st) :
    (applyChanges chg c).style = mergeStyle c.style st := by
  unfold applyChanges
  rw [h]
  cases chg.position <;> cases chg.size <;> cases chg.rotation <;> cases chg.zIndex <;>
    cases chg.content <;> simp

theorem find?_modifyFirst (f : ComponentSpec → ComponentSpec) (cid : String)
    (hf : ∀ c, (f c).id = c.id) (l : List ComponentSpec) :
    List.find? (fun x => x.id == cid) (modifyFirst f cid l) =
      (List.find? (fun x => x.id == cid) l).map f := by
  induction l with
  | nil => rfl
  | cons c rest ih =>
    by_cases hc : c.id = cid
    · rw [modifyFirst, if_pos (by simp [hc])]
      rw [List.find?_cons_of_pos _ (by simp [hf, hc]), List.find?_cons_of_pos _ (by simp [hc])]
      rfl
    · rw [modifyFirst, if_neg (by simp [hc])]
      rw [List.find?_cons_of_neg _ (by simp [hc]), List.find?_cons_of_neg _ (by simp [hc])]
      exact ih

/-- C7: a `modify` whose `changes.style` is present rewrites the targeted
component's style to the key-by-key merge: every field absent from the
update keeps its old value, every present field takes the new value. -/
theorem C7_style_merge (L : LayoutSpec) (cid : String) (chg : ComponentChanges)
    (st : ComponentStyle) (c : ComponentSpec)
    (hst : chg.style = Option.some st)
    (hfind : List.find? (fun x => x.id == cid) L.components = Option.some c) :
    List.find? (fun x => x.id == cid) (applyEdits L [.modify cid chg]).components =
      Option.some (applyChanges chg c) ∧
    (applyChanges chg c).style = mergeStyle c.style st ∧
    (st.fill = Option.none → (mergeStyle c.style st).fill = c.style.fill) ∧
    (∀ v, st.fill = Option.some v → (mergeStyle c.style st).fill = Option.some v) ∧
    (st.stroke = Option.none → (mergeStyle c.style st).stroke = c.style.stroke) ∧
    (∀ v, st.stroke = Option.some v → (mergeStyle c.style st).stroke = Option.some v) ∧
    (st.strokeWidth = Option.none → (mergeStyle c.style st).strokeWidth = c.style.strokeWidth) ∧
    (∀ v, st.strokeWidth = Option.some v → (mergeStyle c.style st).strokeWidth = Option.some v) ∧
    (st.borderRadius = Option.none → (mergeStyle c.style st).borderRadius = c.style.borderRadius) ∧
    (∀ v, st.borderRadius = Option.some v → (mergeStyle c.style st).borderRadius = Option.some v) ∧
    (st.opacity = Option.none → (mergeStyle c.style st).opacity = c.style.opacity) ∧
    (∀ v, st.opacity = Option.some v → (mergeStyle c.style st).opacity = Option.some v) ∧
    (st.fontFamily = Option.none → (mergeStyle c.style st).fontFamily = c.style.fontFamily) ∧
    (∀ v, st.fontFamily = Option.some v → (mergeStyle c.style st).fontFamily = Option.some v) ∧
    (st.fontSize = Option.none → (mergeStyle c.style st).fontSize = c.style.fontSize) ∧
    (∀ v, st.fontSize = Option.some v → (mergeStyle c.style st).fontSize = Option.some v) ∧
    (st.fontWeight = Option.none → (mergeStyle c.style st).fontWeight = c.style.fontWeight) ∧
    (∀ v, st.fontWeight = Option.some v → (mergeStyle c.style st).fontWeight = Option.some v) ∧
    (st.textAlign = Option.none → (mergeStyle c.style st).textAlign = c.style.textAlign) ∧
    (∀ v, st.textAlign = Option.some v → (mergeStyle c.style st).textAlign = Option.some v) ∧
    (st.color = Option.none → (mergeStyle c.style st).color = c.style.color) ∧
    (∀ v, st.color = Option.some v → (mergeStyle c.style st).color = Option.some v) ∧
    (st.letterSpacing = Option.none → (mergeStyle c.style st).letterSpacing = c.style.letterSpacing) ∧
    (∀ v, st.letterSpacing = Option.some v → (mergeStyle c.style st).letterSpacing = Option.some v) ∧
    (st.lineHeight = Option.none → (mergeStyle c.style st).lineHeight = c.style.lineHeight) ∧
    (∀ v, st.lineHeight = Option.some v → (mergeStyle c.style st).lineHeight = Option.some v) ∧
    (st.gradient = Option.none → (mergeStyle c.style st).gradient = c.style.gradient) ∧
    (∀ v, st.gradient = Option.some v → (mergeStyle c.style st).gradient = Option.some v) ∧
    (st.shadow = Option.none → (mergeStyle c.style st).shadow = c.style.shadow) ∧
    (∀ v, st.shadow = Option.some v → (mergeStyle c.style st).shadow = Option.some v) ∧
    (st.shadows = Option.none → (mergeStyle c.style st).shadows = c.style.shadows) ∧
    (∀ v, st.shadows = Option.some v → (mergeStyle c.style st).shadows = Option.some v) ∧
    (st.textTransform = Option.none → (mergeStyle c.style st).textTransform = c.style.textTransform) ∧
    (∀ v, st.textTransform = Option.some v → (mergeStyle c.style st).textTransform = Option.some v) := by
  refine ⟨?_, applyChanges_style_of_some chg c st hst, ?_, ?_, ?_, ?_, ?_, ?_, ?_, ?_, ?_, ?_, ?_, ?_, ?_, ?_, ?_, ?_, ?_, ?_, ?_, ?_, ?_, ?_, ?_, ?_, ?_, ?_, ?_, ?_, ?_, ?_, ?_, ?_⟩
  · show List.find? (fun x => x.id == cid)
      (modifyFirst (applyChanges chg) cid L.components) = Option.some (applyChanges chg c)
    rw [find?_modifyFirst _ _ (applyChanges_id chg) _, hfind]
    rfl
  all_goals first
    | (intro h; simp [mergeStyle, h, Option.or])
    | (intro v h; simp [mergeStyle, h, Option.or])

/-- Witness for C7: updating only `fontSize` on a component whose style
has a fill and a gradient keeps the gradient and sets fontSize to 20. -/
theorem C7_style_merge_witness :
    List.find? (fun x => x.id == "a") (applyEdits layoutE [.modify "a" chgE]).components =
      Option.some (applyChanges chgE compE) ∧
    (applyChanges chgE compE).style.gradient = compE.style.gradient ∧
    (applyChanges chgE compE).style.fontSize = Option.some 20 := by
  obtain ⟨h1, h2, hnfill, hsfill, hnstroke, hsstroke, hnstrokeWidth, hsstrokeWidth, hnborderRadius, hsborderRadius, hnopacity, hsopacity, hnfontFamily, hsfontFamily, hnfontSize, hsfontSize, hnfontWeight, hsfontWeight, hntextAlign, hstextAlign, hncolor, hscolor, hnletterSpacing, hsletterSpacing, hnlineHeight, hslineHeight, hngradient, hsgradient, hnshadow, hsshadow, hnshadows, hsshadows, hntextTransform, hstextTransform⟩ :=
    C7_style_merge layoutE "a" chgE styleFontSize20 compE rfl rfl
  refine ⟨h1, ?_, ?_⟩
  · rw [h2]
    exact hngradient rfl
  · rw [h2]
    exact hsfontSize 20 rfl

/-! ## C8: shadow precedence in the two render backends -/

/-- Amended C8: the React renderer's `resolveBoxShadow` gives a non-empty
`shadows` precedence (the single `shadow` is ignored there), while the SVG
mapper's button branch ignores `shadows` entirely and reads only the
single `shadow`. -/
theorem C8_shadow_precedence (st : ComponentStyle) (s : Shadow) (l : List Shadow)
    (counter : Nat) (sh : Option Shadow) (front : Option (List Shadow))
    (hsh : st.shadows = Option.some (s :: l)) :
    resolveBoxShadow st = Option.some (String.intercalate ", " ((s :: l).map shadowCss)) ∧
    resolveBoxShadow { st with shadow := sh } = resolveBoxShadow st ∧
    buttonShadowPart { st with shadows := front } counter = buttonShadowPart st counter := by
  refine ⟨?_, ?_, rfl⟩
  · unfold resolveBoxShadow
    rw [hsh]
  · unfold resolveBoxShadow
    rw [show ({ st with shadow := sh } : ComponentStyle).shadows = st.shadows from rfl, hsh]

/-- Witness for the amended C8 at `stBoth`. -/
theorem C8_shadow_precedence_witness :
    resolveBoxShadow stBoth = Option.some (String.intercalate ", " ([shadowBlue].map shadowCss)) ∧
    resolveBoxShadow { stBoth with shadow := Option.none } = resolveBoxShadow stBoth ∧
    buttonShadowPart { stBoth with shadows := Option.none } 0 = buttonShadowPart stBoth 0 :=
  C8_shadow_precedence stBoth shadowBlue [] 0 Option.none Option.none rfl

/-- C8 counterexample: the SVG mapper does NOT ignore the single `shadow`
when `shadows` is non-empty — with identical non-empty `shadows`, the
button branch emits a shadow filter exactly when the single `shadow` is
present, so its output depends on the field the claim says is ignored. -/
theorem C8_counterexample :
    stBoth.shadows = stOnlyList.shadows ∧
    stBoth.shadows = Option.some [shadowBlue] ∧
    stBoth.shadow = Option.some shadowRed ∧
    stOnlyList.shadow = Option.none ∧
    (buttonShadowPart stBoth 0).1.length = 1 ∧
    (buttonShadowPart stOnlyList 0).1.length = 0 ∧
    buttonShadowPart stBoth 0 ≠ buttonShadowPart stOnlyList 0 := by
  refine ⟨rfl, rfl, rfl, rfl, rfl, rfl, ?_⟩
  intro h
  have hlen := congrArg (fun t => t.1.length) h
  have h1 : (1:Nat) = 0 := hlen
  exact Nat.one_ne_zero h1

/-! ## C5: repair type coercion (modelled from the spec) -/

/-- Amended C5: the keyword rules are ordered — an unknown type string
containing "photo" (resp. "nav") is coerced to `image-placeholder`
(resp. `container`) only when no earlier rule's keyword also occurs in it;
a string matching no keyword at all becomes `shape`. -/
theorem C5_type_coercion (s : String) (hk : parseType s = Option.none) :
    (containsAny (strToLower s) ["heading", "paragraph", "label", "title"] = false →
     containsAny (strToLower s) ["image", "img", "photo"] = true →
     repairType s = ComponentType.imagePlaceholder) ∧
    (containsAny (strToLower s) ["heading", "paragraph", "label", "title"] = false →
     containsAny (strToLower s) ["image", "img", "photo"] = false →
     containsAny (strToLower s) ["line", "separator", "hr"] = false →
     containsAny (strToLower s) ["list", "section", "group", "nav", "header", "footer"] = true →
     repairType s = ComponentType.container) ∧
    (containsAny (strToLower s) ["heading", "paragraph", "label", "title"] = false →
     containsAny (strToLower s) ["image", "img", "photo"] = false →
     containsAny (strToLower s) ["line", "separator", "hr"] = false →
     containsAny (strToLower s) ["list", "section", "group", "nav", "header", "footer"] = false →
     repairType s = ComponentType.shape) := by
  unfold repairType
  rw [hk]
  unfold coerceType
  refine ⟨?_, ?_, ?_⟩
  · intro h1 h2
    simp [h1, h2]
  · intro h1 h2 h3 h4
    simp [h1, h2, h3, h4]
  · intro h1 h2 h3 h4
    simp [h1, h2, h3, h4]

/-- Witness for the amended C5 on the three example strings. -/
theorem C5_type_coercion_witness :
    repairType "photo" = ComponentType.imagePlaceholder ∧
    repairType "navbar" = ComponentType.container ∧
    repairType "custom-blob" = ComponentType.shape :=
  ⟨(C5_type_coercion "photo" rfl).1 rfl rfl,
   (C5_type_coercion "navbar" rfl).2.1 rfl rfl rfl rfl,
   (C5_type_coercion "custom-blob" rfl).2.2 rfl rfl rfl rfl⟩

/-- C5 counterexample: "photo title" is an unknown type containing
"photo", yet repair coerces it to `text`, not `image-placeholder` — the
text-keyword rule ("title") fires first in the ordered rule list. -/
theorem C5_counterexample :
    parseType "photo title" = Option.none ∧
    containsStr (strToLower "photo title") "photo" = true ∧
    repairType "photo title" = ComponentType.text ∧
    ComponentType.text ≠ ComponentType.imagePlaceholder :=
  ⟨rfl, rfl, by decide, by decide⟩

end Remotion
